import Mathlib

/-!
Verification of the promo-frontend submission gatekeeper.

This file gives a shallow embedding of the repository's abuse-defense core:
the in-memory rate limiter (`src/lib/rate-limiter.ts`), the reCAPTCHA client
(`src/lib/recaptcha.ts`), and the contact-form `POST` endpoint orchestrator,
and proves the behavioural claims about them.

Modelling conventions:

* JavaScript timestamps (`Date.now()` values in milliseconds) are `Int`.
  All `Date.now()` calls made while serving one request are modelled as a
  single instant `now` passed to the handler.
* The process-wide `Map<string, RateLimitEntry>` is an association list
  `List (String × RateLimitEntry)` with at most one binding per key
  (lookups take the first binding, `set` replaces in place, matching `Map`).
* String helpers (`toLowerCase`, `trim`, `split`) are re-expressed as
  structurally recursive functions over `String.data` so that concrete
  evaluations reduce in the kernel; they implement the same character-level
  semantics as the JavaScript originals on the inputs involved.
* Network effects are captured by oracle parameters (the value the reCAPTCHA
  verification would produce, whether the upstream Strapi call succeeds) and
  by an explicit event trace recording which external calls were made.
-/

namespace PromoFrontend

/-- Drop leading whitespace, as `String.trimLeft` / JS `trim` does on entry. -/
def trimChars (cs : List Char) : List Char :=
  ((cs.dropWhile Char.isWhitespace).reverse.dropWhile Char.isWhitespace).reverse

/-- JS `s.trim()`. -/
def trimStr (s : String) : String := ⟨trimChars s.data⟩

/-- JS `s.toLowerCase()` (ASCII-range case mapping, as `Char.toLower`). -/
def lowerStr (s : String) : String := ⟨s.data.map Char.toLower⟩

/-! ## Rate limiter (`src/lib/rate-limiter.ts`) -/

/-- `interface RateLimitEntry { count: number; firstRequestAt: number }`. -/
structure RateLimitEntry where
  count : Nat
  firstRequestAt : Int
  deriving Repr, DecidableEq

/-- The in-memory `rateLimitStore : Map<string, RateLimitEntry>`. -/
abbrev Store := List (String × RateLimitEntry)

/-- `const WINDOW_MS = 60 * 60 * 1000` (one hour). -/
def WINDOW_MS : Int := 60 * 60 * 1000

/-- `const MAX_REQUESTS_PER_IP = 5`. -/
def MAX_REQUESTS_PER_IP : Nat := 5

/-- `const MAX_REQUESTS_PER_EMAIL = 3`. -/
def MAX_REQUESTS_PER_EMAIL : Nat := 3

/-- `setInterval(cleanupExpiredEntries, 15 * 60 * 1000)`: the sweep period. -/
def CLEANUP_INTERVAL_MS : Int := 15 * 60 * 1000

/-- `rateLimitStore.get key`. -/
def lookupEntry (k : String) : Store → Option RateLimitEntry
  | [] => none
  | (k', v) :: rest => if k' = k then some v else lookupEntry k rest

/-- `rateLimitStore.set key v` (replace existing binding, else add). -/
def setEntry (k : String) (v : RateLimitEntry) : Store → Store
  | [] => [(k, v)]
  | (k', v') :: rest =>
      if k' = k then (k, v) :: rest else (k', v') :: setEntry k v rest

/-- `identifier.toLowerCase().trim()`, the key normalization in `checkRateLimit`. -/
def normalizeKey (identifier : String) : String := trimStr (lowerStr identifier)

/-- The `{ allowed, remaining, resetAt }` record returned by `checkRateLimit`. -/
structure RateLimitResult where
  allowed : Bool
  remaining : Int
  resetAt : Int
  deriving Repr, DecidableEq

/-- `checkRateLimit(identifier, maxRequests)` from `src/lib/rate-limiter.ts`,
with the ambient `Date.now()` and the mutable store made explicit. -/
def checkRateLimit (now : Int) (identifier : String) (maxRequests : Nat)
    (s : Store) : RateLimitResult × Store :=
  let key := normalizeKey identifier
  match lookupEntry key s with
  | none =>
      (⟨true, (maxRequests : Int) - 1, now + WINDOW_MS⟩, setEntry key ⟨1, now⟩ s)
  | some entry =>
      if now - entry.firstRequestAt > WINDOW_MS then
        (⟨true, (maxRequests : Int) - 1, now + WINDOW_MS⟩, setEntry key ⟨1, now⟩ s)
      else if entry.count ≥ maxRequests then
        (⟨false, 0, entry.firstRequestAt + WINDOW_MS⟩, s)
      else
        (⟨true, (maxRequests : Int) - (entry.count + 1), entry.firstRequestAt + WINDOW_MS⟩,
          setEntry key ⟨entry.count + 1, entry.firstRequestAt⟩ s)

/-- `checkIpRateLimit(ip)`: `checkRateLimit` on `` `ip:${ip}` `` with the IP ceiling. -/
def checkIpRateLimit (now : Int) (ip : String) (s : Store) : RateLimitResult × Store :=
  checkRateLimit now ("ip:" ++ ip) MAX_REQUESTS_PER_IP s

/-- `checkEmailRateLimit(email)`: `checkRateLimit` on `` `email:${email}` ``. -/
def checkEmailRateLimit (now : Int) (email : String) (s : Store) : RateLimitResult × Store :=
  checkRateLimit now ("email:" ++ email) MAX_REQUESTS_PER_EMAIL s

/-- `getResetTimeSeconds(resetAt) = Math.ceil((resetAt - Date.now()) / 1000)`.
For integers, `Math.ceil(a / 1000)` is `(a + 999).ediv 1000`. -/
def getResetTimeSeconds (resetAt now : Int) : Int :=
  (resetAt - now + 999) / 1000

/-- `cleanupExpiredEntries()`: delete every entry with
`now - entry.firstRequestAt > WINDOW_MS`. -/
def cleanupExpiredEntries (now : Int) : Store → Store
  | [] => []
  | (k, e) :: rest =>
      if now - e.firstRequestAt > WINDOW_MS then cleanupExpiredEntries now rest
      else (k, e) :: cleanupExpiredEntries now rest

/-- Run `checkRateLimit` once per timestamp in the list, threading the store;
returns the list of results and the final store. -/
def runChecks (id : String) (max : Nat) : List Int → Store → List RateLimitResult × Store
  | [], s => ([], s)
  | t :: ts, s =>
      let p := checkRateLimit t id max s
      let q := runChecks id max ts p.2
      (p.1 :: q.1, q.2)

/-! ## reCAPTCHA client (`src/lib/recaptcha.ts`) -/

/-- `interface RecaptchaVerificationResult` from `src/lib/recaptcha.ts`.
The optional float `score` is modelled as an `Option Rat`. -/
structure RecaptchaVerificationResult where
  success : Bool
  score : Option Rat
  errorCodes : Option (List String)
  challengeTs : Option String
  hostname : Option String
  deriving Repr, DecidableEq

/-- The JSON body Google's `siteverify` endpoint answers with
(`{success, score?, "error-codes"?, challenge_ts?, hostname?}`). -/
structure GoogleSiteverifyResponse where
  success : Bool
  score : Option Rat
  errorCodes : Option (List String)
  challengeTs : Option String
  hostname : Option String
  deriving Repr, DecidableEq

/-- Outcome of the `fetch` to the verification service: a parsed JSON body,
a network failure (`fetch` rejected), or a body that failed to parse
(`response.json()` threw). -/
inductive FetchOutcome where
  | ok (resp : GoogleSiteverifyResponse)
  | networkError
  | parseError
  deriving Repr, DecidableEq

/-- `verifyRecaptcha(token, secretKey, remoteIp?)`: the network interaction is
an oracle parameter; the `catch` branch of the source maps both failure modes
to `{success: false, errorCodes: ["verification_error"]}`. The function is
total — it never raises. -/
def verifyRecaptcha (token secretKey : String) (remoteIp : Option String)
    (outcome : FetchOutcome) : RecaptchaVerificationResult :=
  match outcome with
  | .ok r => ⟨r.success, r.score, r.errorCodes, r.challengeTs, r.hostname⟩
  | .networkError => ⟨false, none, some ["verification_error"], none, none⟩
  | .parseError => ⟨false, none, some ["verification_error"], none, none⟩

/-- `isRecaptchaValid(result)`:
`result.success === true && (!result.errorCodes || result.errorCodes.length === 0)`.
In JS an empty array is truthy, so `!result.errorCodes` is true only when the
field is absent, and a present list must have length `0`. -/
def isRecaptchaValid (result : RecaptchaVerificationResult) : Bool :=
  result.success &&
    (match result.errorCodes with
     | none => true
     | some l => l.length == 0)

/-! ## Input sanitizer (`sanitizeInput` in the contact endpoint) -/

/-- The apostrophe character `U+0027`, the fifth guarded character. -/
def apos : Char := Char.ofNat 39

/-- `"&amp;".data`, the replacement for `&`. -/
def ampCode : List Char := ['&', 'a', 'm', 'p', ';']

/-- `"&lt;".data`, the replacement for `<`. -/
def ltCode : List Char := ['&', 'l', 't', ';']

/-- `"&gt;".data`, the replacement for `>`. -/
def gtCode : List Char := ['&', 'g', 't', ';']

/-- `"&quot;".data`, the replacement for `"`. -/
def quotCode : List Char := ['&', 'q', 'u', 'o', 't', ';']

/-- `"&#039;".data`, the replacement for the apostrophe. -/
def aposCode : List Char := ['&', '#', '0', '3', '9', ';']

/-- `input.replace(/p/g, repl)` for a single-character pattern `p`: every
occurrence of the character is replaced by `repl`. -/
def replaceAllChar (pat : Char) (repl : List Char) : List Char → List Char
  | [] => []
  | c :: cs => (if c = pat then repl else [c]) ++ replaceAllChar pat repl cs

/-- `sanitizeInput` from the contact endpoint, on character lists: the five
global replaces applied in source order (`&` first, then `<`, `>`, `"`, `'`). -/
def sanitizeChars (s : List Char) : List Char :=
  replaceAllChar apos aposCode
    (replaceAllChar '"' quotCode
      (replaceAllChar '>' gtCode
        (replaceAllChar '<' ltCode
          (replaceAllChar '&' ampCode s))))

/-- `sanitizeInput(input)` on strings. -/
def sanitizeInput (s : String) : String := ⟨sanitizeChars s.data⟩

/-- The per-character entity encoding that the five sequential replaces
amount to (proved below): each guarded character maps to its entity code,
every other character to itself. -/
def encChar (c : Char) : List Char :=
  if c = '&' then ampCode
  else if c = '<' then ltCode
  else if c = '>' then gtCode
  else if c = '"' then quotCode
  else if c = apos then aposCode
  else [c]

/-- Character-wise encoding of a whole list. -/
def encodeList : List Char → List Char
  | [] => []
  | c :: cs => encChar c ++ encodeList cs

/-- Decode one entity code after a leading `&` (used to invert `encChar`). -/
def decodeAmp : List Char → Option (Char × List Char)
  | 'a' :: 'm' :: 'p' :: ';' :: r => some ('&', r)
  | 'l' :: 't' :: ';' :: r => some ('<', r)
  | 'g' :: 't' :: ';' :: r => some ('>', r)
  | 'q' :: 'u' :: 'o' :: 't' :: ';' :: r => some ('"', r)
  | '#' :: '0' :: '3' :: '9' :: ';' :: r => some (apos, r)
  | _ => none

/-- Decode the first encoded character of an `encodeList` image. -/
def decodeHead : List Char → Option (Char × List Char)
  | [] => none
  | c :: rest => if c = '&' then decodeAmp rest else some (c, rest)

/-! ## Contact endpoint (`POST` handler of the contact API route) -/

/-- A JSON value as the endpoint may receive it in a body field. -/
inductive JVal where
  | str (s : String)
  | num (n : Int)
  | boolean (b : Bool)
  | null
  | obj
  deriving Repr, DecidableEq

/-- JavaScript truthiness of a JSON value. -/
def truthy : JVal → Bool
  | .str s => s != ""
  | .num n => n != 0
  | .boolean b => b
  | .null => false
  | .obj => true

/-- Truthiness of a possibly-absent field (`undefined` is falsy). -/
def truthyO : Option JVal → Bool
  | none => false
  | some v => truthy v

/-- The parsed JSON body of a contact submission; `none` fields are absent. -/
structure ContactBody where
  website_url : Option JVal
  website : Option JVal
  recaptchaToken : Option JVal
  email : Option JVal
  name : Option JVal
  subject : Option JVal
  message : Option JVal
  deriving Repr, DecidableEq

/-- The inbound request: `clientAddress` (whose getter can throw in Astro),
the `x-forwarded-for` header, and the JSON body (`none` when
`request.json()` throws). -/
structure ContactRequest where
  clientAddressThrows : Bool
  clientAddress : Option String
  xForwardedFor : Option String
  jsonBody : Option ContactBody
  deriving Repr, DecidableEq

/-- The environment configuration read at module load:
`STRAPI_API_TOKEN`, `RECAPTCHA_SECRET_KEY`, and
`IS_DEV = import.meta.env.DEV || NODE_ENV === "development"`. -/
structure Config where
  strapiApiToken : Option String
  recaptchaSecretKey : Option String
  isDev : Bool
  deriving Repr, DecidableEq

/-- `!STRAPI_API_TOKEN` is the fail-closed config check (empty string is falsy). -/
def tokenConfigured (cfg : Config) : Bool :=
  match cfg.strapiApiToken with
  | some t => t != ""
  | none => false

/-- `RECAPTCHA_SECRET_KEY && RECAPTCHA_SECRET_KEY !== "your_secret_key_here"`. -/
def usableSecret (cfg : Config) : Bool :=
  match cfg.recaptchaSecretKey with
  | some k => k != "" && k != "your_secret_key_here"
  | none => false

/-- `REQUIRE_CAPTCHA = !IS_DEV || (SECRET && SECRET !== "your_secret_key_here")`. -/
def requireCaptcha (cfg : Config) : Bool :=
  !cfg.isDev || usableSecret cfg

/-- `header.split(",")[0].trim()` for the `x-forwarded-for` value. -/
def firstForwarded (s : String) : String :=
  trimStr ⟨s.data.takeWhile (fun c => c != ',')⟩

/-- IP extraction with fallbacks:
`clientAddress || request.headers.get("x-forwarded-for")?.split(",")[0]?.trim() || "unknown"`,
the whole chain guarded by `try/catch` yielding `"unknown"`. -/
def getIp (req : ContactRequest) : String :=
  if req.clientAddressThrows then "unknown"
  else
    let viaHeader :=
      match req.xForwardedFor with
      | some f => if firstForwarded f != "" then firstForwarded f else "unknown"
      | none => "unknown"
    match req.clientAddress with
    | some a => if a != "" then a else viaHeader
    | none => viaHeader

/-- `!body.recaptchaToken || typeof body.recaptchaToken !== "string" ||
body.recaptchaToken.trim() === ""`: the token is missing, falsy, not a
string, or blank. -/
def badToken : Option JVal → Bool
  | none => true
  | some v =>
      !(truthy v) ||
        (match v with
         | .str t => trimStr t == ""
         | _ => true)

/-- The string payload of a known-good token (used for the event trace). -/
def tokenString : Option JVal → String
  | some (.str t) => t
  | _ => ""

/-- `body.email?.toLowerCase().trim()`: absent/null short-circuits to
`undefined`; a non-string throws (`toLowerCase` is not a function), which the
endpoint's outer `catch` turns into a 500. -/
def extractEmail : Option JVal → Except Unit (Option String)
  | none => .ok none
  | some .null => .ok none
  | some (.str e) => .ok (some (trimStr (lowerStr e)))
  | some _ => .error ()

/-- JS `x.length > n` for a body field: on a non-string, `x.length` is
`undefined` and the comparison is false. -/
def jvalLenGt : Option JVal → Nat → Bool
  | some (.str t), n => decide (n < t.data.length)
  | _, _ => false

/-- JS `x.length < n` for a body field (false on non-strings). -/
def jvalLenLt : Option JVal → Nat → Bool
  | some (.str t), n => decide (t.data.length < n)
  | _, _ => false

/-- A character the regex classes `[^\s@]` accept. -/
def emailChar (c : Char) : Bool := !c.isWhitespace && c != '@'

/-- `/^[^\s@]+@[^\s@]+\.[^\s@]+$/.test(email)`: a nonempty `[^\s@]+` local
part, one `@`, and a domain that is all `[^\s@]` and contains a `.` with at
least one character on each side. -/
def isEmailFormat (e : String) : Bool :=
  let cs := e.data
  let localPart := cs.takeWhile (fun c => c != '@')
  match cs.drop localPart.length with
  | '@' :: domain =>
      localPart.all emailChar && !localPart.isEmpty && domain.all emailChar &&
        (List.range domain.length).any (fun j =>
          decide (domain.getD j ' ' = '.') && decide (0 < j) &&
            decide (j + 1 < domain.length))
  | _ => false

/-- Layer 5 of the endpoint: field validation, returning the first failing
rule's message. -/
def validateFields (body : ContactBody) (email : String) : Option String :=
  if !(truthyO body.name) || !(truthyO body.subject) || !(truthyO body.message) then
    some "All fields are required"
  else if jvalLenGt body.name 100 then
    some "Name is too long (max 100 characters)"
  else if jvalLenGt body.subject 200 then
    some "Subject is too long (max 200 characters)"
  else if jvalLenGt body.message 2000 || jvalLenLt body.message 10 then
    some "Message must be between 10 and 2000 characters"
  else if !(isEmailFormat email) then
    some "Invalid email format"
  else
    none

/-- The `sanitizedData` object forwarded to the upstream content store. -/
structure SanitizedSubmission where
  name : String
  email : String
  subject : String
  message : String
  msgStatus : String
  deriving Repr, DecidableEq

/-- A string-valued field, if it is one. -/
def asString : Option JVal → Option String
  | some (.str t) => some t
  | _ => none

/-- Build `sanitizedData` from the validated body. Each text field goes
through `.trim()` then `sanitizeInput`; a truthy non-string field (which
slips through the length checks) makes `.trim()` throw, yielding `none`
(caught as a 500 by the endpoint). -/
def buildSanitized (body : ContactBody) (email : String) : Option SanitizedSubmission :=
  match asString body.name, asString body.subject, asString body.message with
  | some n, some su, some m =>
      some ⟨sanitizeInput (trimStr n), trimStr email,
        sanitizeInput (trimStr su), sanitizeInput (trimStr m), "pending"⟩
  | _, _, _ => none

/-- One externally visible network interaction of the endpoint. -/
inductive NetEvent where
  | captchaVerify (token : String)
  | ipCheck (identifier : String)
  | emailCheck (identifier : String)
  | strapiPost (payload : SanitizedSubmission)
  deriving Repr, DecidableEq

/-- The HTTP response the endpoint produces: status, the JSON `error` field,
the JSON `retryAfter` field, the `Retry-After` header value, the `success`
flag and the success `message`. -/
structure ApiResponse where
  status : Nat
  error : Option String
  retryAfter : Option Int
  retryAfterHeader : Option Int
  success : Bool
  message : Option String
  deriving Repr, DecidableEq

/-- Layers 3-5 plus forwarding: the part of the handler after the honeypot
and CAPTCHA gates. `strapiOk` is the oracle for the upstream call succeeding. -/
def afterCaptcha (body : ContactBody) (ip : String) (now : Int) (strapiOk : Bool)
    (s : Store) (evs : List NetEvent) : ApiResponse × Store × List NetEvent :=
  let ipr := checkIpRateLimit now ip s
  let evs1 := evs ++ [.ipCheck ("ip:" ++ ip)]
  if !ipr.1.allowed then
    let secs := getResetTimeSeconds ipr.1.resetAt now
    (⟨429, some "Too many requests", some secs, some secs, false, none⟩, ipr.2, evs1)
  else
    match extractEmail body.email with
    | .error _ => (⟨500, some "Internal server error", none, none, false, none⟩, ipr.2, evs1)
    | .ok none => (⟨400, some "Email is required", none, none, false, none⟩, ipr.2, evs1)
    | .ok (some email) =>
        if email == "" then
          (⟨400, some "Email is required", none, none, false, none⟩, ipr.2, evs1)
        else
          let emr := checkEmailRateLimit now email ipr.2
          let evs2 := evs1 ++ [.emailCheck ("email:" ++ email)]
          if !emr.1.allowed then
            let secs := getResetTimeSeconds emr.1.resetAt now
            (⟨429, some "Too many submissions from this email", some secs, some secs,
              false, none⟩, emr.2, evs2)
          else
            match validateFields body email with
            | some msg => (⟨400, some msg, none, none, false, none⟩, emr.2, evs2)
            | none =>
                match buildSanitized body email with
                | none =>
                    (⟨500, some "Internal server error", none, none, false, none⟩, emr.2, evs2)
                | some payload =>
                    let evs3 := evs2 ++ [.strapiPost payload]
                    if strapiOk then
                      (⟨200, none, none, none, true,
                        some "Your message has been sent successfully"⟩, emr.2, evs3)
                    else
                      (⟨500, some "Failed to submit message", none, none, false, none⟩,
                        emr.2, evs3)

/-- The contact endpoint `POST` handler. `captchaResult` is the oracle value
`verifyRecaptcha` would produce if called; the event trace records every
external call actually made. All `Date.now()` readings during the request are
modelled as the single instant `now`. -/
def postContact (cfg : Config) (req : ContactRequest) (now : Int)
    (captchaResult : RecaptchaVerificationResult) (strapiOk : Bool)
    (s : Store) : ApiResponse × Store × List NetEvent :=
  let ip := getIp req
  if !(tokenConfigured cfg) then
    (⟨500, some "Server configuration error", none, none, false, none⟩, s, [])
  else
    match req.jsonBody with
    | none => (⟨500, some "Internal server error", none, none, false, none⟩, s, [])
    | some body =>
        if truthyO body.website_url || truthyO body.website then
          (⟨400, some "Submission rejected", none, none, false, none⟩, s, [])
        else if requireCaptcha cfg then
          if badToken body.recaptchaToken then
            (⟨400, some "reCAPTCHA verification required", none, none, false, none⟩, s, [])
          else if !(isRecaptchaValid captchaResult) then
            (⟨400, some "reCAPTCHA verification failed", none, none, false, none⟩, s,
              [.captchaVerify (tokenString body.recaptchaToken)])
          else
            afterCaptcha body ip now strapiOk s
              [.captchaVerify (tokenString body.recaptchaToken)]
        else
          afterCaptcha body ip now strapiOk s []

/-! ## Rate limiter lemmas -/

theorem lookupEntry_setEntry_self (k : String) (v : RateLimitEntry) (s : Store) :
    lookupEntry k (setEntry k v s) = some v := by
  induction s with
  | nil => simp [setEntry, lookupEntry]
  | cons hd rest ih =>
      obtain ⟨k', v'⟩ := hd
      by_cases h : k' = k
      · simp [setEntry, h, lookupEntry]
      · simp [setEntry, h, lookupEntry, ih]

/-- Within an active window and below the cap, a run of checks is all allowed
and just increments the stored count, keeping the window start. -/
theorem runChecks_active (id : String) (max : Nat) :
    ∀ (ts : List Int) (s : Store) (k : Nat) (w : Int),
      lookupEntry (normalizeKey id) s = some ⟨k, w⟩ →
      (∀ t ∈ ts, t - w ≤ WINDOW_MS) →
      k + ts.length ≤ max →
      (∀ r ∈ (runChecks id max ts s).1, r.allowed = true) ∧
      lookupEntry (normalizeKey id) (runChecks id max ts s).2 = some ⟨k + ts.length, w⟩ := by
  intro ts
  induction ts with
  | nil =>
      intro s k w hlook _ _
      simpa [runChecks] using hlook
  | cons t ts ih =>
      intro s k w hlook hwin hcap
      have hnexp : ¬ (t - w > WINDOW_MS) := by
        have := hwin t (by simp)
        omega
      have hklt : ¬ (k ≥ max) := by
        simp only [List.length_cons] at hcap
        omega
      have hstep : checkRateLimit t id max s =
          (⟨true, (max : Int) - (k + 1), w + WINDOW_MS⟩,
            setEntry (normalizeKey id) ⟨k + 1, w⟩ s) := by
        simp [checkRateLimit, hlook, hnexp, hklt]
      have hlook' : lookupEntry (normalizeKey id)
          (setEntry (normalizeKey id) ⟨k + 1, w⟩ s) = some ⟨k + 1, w⟩ :=
        lookupEntry_setEntry_self _ _ _
      have hwin' : ∀ t' ∈ ts, t' - w ≤ WINDOW_MS := fun t' ht' => hwin t' (by simp [ht'])
      have hcap' : (k + 1) + ts.length ≤ max := by
        simp only [List.length_cons] at hcap
        omega
      obtain ⟨hall, hfin⟩ := ih (setEntry (normalizeKey id) ⟨k + 1, w⟩ s) (k + 1) w hlook' hwin' hcap'
      constructor
      · intro r hr
        simp only [runChecks, hstep] at hr
        rcases List.mem_cons.1 hr with h | h
        · simp [h]
        · exact hall r h
      · simp only [runChecks, hstep]
        simpa [Nat.add_assoc, Nat.add_comm 1 ts.length] using hfin

/-- C1: for every identifier checked against a fixed `maxRequests`, within one
window the first `maxRequests` checks return `allowed = true`, and the
`(maxRequests + 1)`-th check within the same window returns `allowed = false`
with `resetAt` equal to the window's start timestamp plus the window duration. -/
theorem claim_C1 (max : Nat) (hmax : 0 < max) (id : String) (s : Store)
    (hfresh : lookupEntry (normalizeKey id) s = none)
    (t0 : Int) (ts : List Int) (hlen : ts.length = max - 1)
    (hwin : ∀ t ∈ ts, t - t0 ≤ WINDOW_MS)
    (tN : Int) (hN : tN - t0 ≤ WINDOW_MS) :
    (∀ r ∈ (runChecks id max (t0 :: ts) s).1, r.allowed = true) ∧
    (checkRateLimit tN id max (runChecks id max (t0 :: ts) s).2).1 =
      ⟨false, 0, t0 + WINDOW_MS⟩ := by
  have hstep : checkRateLimit t0 id max s =
      (⟨true, (max : Int) - 1, t0 + WINDOW_MS⟩,
        setEntry (normalizeKey id) ⟨1, t0⟩ s) := by
    simp [checkRateLimit, hfresh]
  have hlook1 : lookupEntry (normalizeKey id)
      (setEntry (normalizeKey id) ⟨1, t0⟩ s) = some ⟨1, t0⟩ :=
    lookupEntry_setEntry_self _ _ _
  have hcap : 1 + ts.length ≤ max := by omega
  obtain ⟨hall, hfin⟩ :=
    runChecks_active id max ts (setEntry (normalizeKey id) ⟨1, t0⟩ s) 1 t0 hlook1 hwin hcap
  have hcount : 1 + ts.length = max := by omega
  rw [hcount] at hfin
  constructor
  · intro r hr
    simp only [runChecks, hstep] at hr
    rcases List.mem_cons.1 hr with h | h
    · simp [h]
    · exact hall r h
  · have hnexp : ¬ (tN - t0 > WINDOW_MS) := by omega
    simp only [runChecks, hstep]
    simp [checkRateLimit, hfin, hnexp]

/-- Witness for C1 with `max = 2`: checks at times `0, 1` are allowed and the
third check at time `2` is denied with `resetAt = 0 + WINDOW_MS`. -/
theorem claim_C1_witness :
    (∀ r ∈ (runChecks "x" 2 (0 :: [1]) []).1, r.allowed = true) ∧
    (checkRateLimit 2 "x" 2 (runChecks "x" 2 (0 :: [1]) []).2).1 =
      ⟨false, 0, 0 + WINDOW_MS⟩ :=
  claim_C1 2 (by decide) "x" [] rfl 0 [1] rfl (by decide) 2 (by decide)

/-- C2: once an identifier's window has expired (more than `WINDOW_MS` past the
entry's first request), the next check is allowed and stores `count = 1` with a
freshly restarted window; the old count is not carried over. -/
theorem claim_C2 (now : Int) (id : String) (max : Nat) (s : Store) (k : Nat) (w : Int)
    (hlook : lookupEntry (normalizeKey id) s = some ⟨k, w⟩)
    (hexp : now - w > WINDOW_MS) :
    (checkRateLimit now id max s).1 = ⟨true, (max : Int) - 1, now + WINDOW_MS⟩ ∧
    lookupEntry (normalizeKey id) (checkRateLimit now id max s).2 = some ⟨1, now⟩ := by
  have hstep : checkRateLimit now id max s =
      (⟨true, (max : Int) - 1, now + WINDOW_MS⟩,
        setEntry (normalizeKey id) ⟨1, now⟩ s) := by
    simp [checkRateLimit, hlook, hexp]
  rw [hstep]
  exact ⟨rfl, lookupEntry_setEntry_self _ _ _⟩

/-- Witness for C2: an entry with count `2` whose window started at `0` is
reset to count `1` by a check at time `WINDOW_MS + 1`. -/
theorem claim_C2_witness :
    (checkRateLimit 3600001 "x" 5 [("x", ⟨2, 0⟩)]).1 =
      ⟨true, (5 : Int) - 1, 3600001 + WINDOW_MS⟩ ∧
    lookupEntry (normalizeKey "x") (checkRateLimit 3600001 "x" 5 [("x", ⟨2, 0⟩)]).2 =
      some ⟨1, 3600001⟩ :=
  claim_C2 3600001 "x" 5 [("x", ⟨2, 0⟩)] 2 0 (by decide) (by decide)

/-- Counterexample to C7 as stated: the claim asserts the sweep interval is
coarser (longer) than the window duration, but in the code the sweep runs
every 15 minutes (`CLEANUP_INTERVAL_MS = 900000`) while the window lasts one
hour (`WINDOW_MS = 3600000`), so the interval is strictly finer. -/
theorem claim_C7_counterexample :
    CLEANUP_INTERVAL_MS = 900000 ∧ WINDOW_MS = 3600000 ∧
    CLEANUP_INTERVAL_MS < WINDOW_MS := by
  refine ⟨rfl, rfl, ?_⟩
  decide

/-- C7 (amended): the sweep removes exactly the entries whose window has fully
expired (`now - firstRequestAt > WINDOW_MS`) and never removes or alters an
entry whose window is still active; the sweep interval (15 minutes) is
strictly shorter than the window duration (1 hour), not coarser. -/
theorem claim_C7_amended :
    (∀ (now : Int) (s : Store) (k : String) (e : RateLimitEntry),
      (k, e) ∈ cleanupExpiredEntries now s ↔
        ((k, e) ∈ s ∧ ¬ (now - e.firstRequestAt > WINDOW_MS))) ∧
    CLEANUP_INTERVAL_MS < WINDOW_MS := by
  constructor
  · intro now s k e
    induction s with
    | nil => simp [cleanupExpiredEntries]
    | cons hd rest ih =>
        obtain ⟨k', e'⟩ := hd
        by_cases hx : now - e'.firstRequestAt > WINDOW_MS
        · simp only [cleanupExpiredEntries, if_pos hx, List.mem_cons]
          rw [ih]
          constructor
          · rintro ⟨h1, h2⟩
            exact ⟨Or.inr h1, h2⟩
          · rintro ⟨h1 | h1, h2⟩
            · injection h1 with hk he
              subst hk
              subst he
              exact absurd hx h2
            · exact ⟨h1, h2⟩
        · simp only [cleanupExpiredEntries, if_neg hx, List.mem_cons]
          constructor
          · rintro (h1 | h1)
            · injection h1 with hk he
              subst hk
              subst he
              exact ⟨Or.inl rfl, hx⟩
            · obtain ⟨h2, h3⟩ := ih.1 h1
              exact ⟨Or.inr h2, h3⟩
          · rintro ⟨h1 | h1, h2⟩
            · exact Or.inl h1
            · exact Or.inr (ih.2 ⟨h1, h2⟩)
  · decide

/-- C5: `verifyRecaptcha` never throws — for every token, secret key, and
optional remote IP, a network failure or a response-parse failure yields
`{success: false, errorCodes: ["verification_error"]}` rather than a raised
exception (the embedding is a total function, so no other outcome exists). -/
theorem claim_C5 : ∀ (token secretKey : String) (remoteIp : Option String),
    verifyRecaptcha token secretKey remoteIp .networkError =
      ⟨false, none, some ["verification_error"], none, none⟩ ∧
    verifyRecaptcha token secretKey remoteIp .parseError =
      ⟨false, none, some ["verification_error"], none, none⟩ :=
  fun _ _ _ => ⟨rfl, rfl⟩

/-- C6: `isRecaptchaValid result` is true exactly when `result.success` is
`true` and the error-code list is empty or absent; in particular a result with
`success: true` and a nonempty `errorCodes` list is judged invalid. -/
theorem claim_C6 : ∀ r : RecaptchaVerificationResult,
    (isRecaptchaValid r = true ↔
      (r.success = true ∧ (r.errorCodes = none ∨ r.errorCodes = some []))) ∧
    isRecaptchaValid ⟨true, none, some ["invalid-input-response"], none, none⟩ = false := by
  intro r
  refine ⟨?_, rfl⟩
  obtain ⟨s, sc, ec, ct, hn⟩ := r
  rcases ec with _ | l
  · cases s <;> simp [isRecaptchaValid]
  · cases s <;> simp [isRecaptchaValid, List.length_eq_zero]

/-! ## Sanitizer lemmas and C9 -/

theorem replaceAllChar_append (p : Char) (r : List Char) (a b : List Char) :
    replaceAllChar p r (a ++ b) = replaceAllChar p r a ++ replaceAllChar p r b := by
  induction a with
  | nil => simp [replaceAllChar]
  | cons c cs ih => simp [replaceAllChar, ih]

theorem sanitizeChars_append (a b : List Char) :
    sanitizeChars (a ++ b) = sanitizeChars a ++ sanitizeChars b := by
  simp [sanitizeChars, replaceAllChar_append]

/-- The five sequential replaces act on a single character exactly as the
entity encoding `encChar`: escaping `&` first means the later passes never
touch the `&` introduced by an earlier replacement. -/
theorem sanitizeChars_singleton (c : Char) : sanitizeChars [c] = encChar c := by
  by_cases h1 : c = '&'
  · subst h1; rfl
  · by_cases h2 : c = '<'
    · subst h2; rfl
    · by_cases h3 : c = '>'
      · subst h3; rfl
      · by_cases h4 : c = '"'
        · subst h4; rfl
        · by_cases h5 : c = apos
          · subst h5; rfl
          · simp [sanitizeChars, replaceAllChar, encChar, h1, h2, h3, h4, h5]

theorem sanitizeChars_eq_encodeList (s : List Char) :
    sanitizeChars s = encodeList s := by
  induction s with
  | nil => rfl
  | cons c cs ih =>
      calc sanitizeChars (c :: cs)
          = sanitizeChars ([c] ++ cs) := rfl
        _ = sanitizeChars [c] ++ sanitizeChars cs := sanitizeChars_append _ _
        _ = encChar c ++ encodeList cs := by rw [sanitizeChars_singleton, ih]
        _ = encodeList (c :: cs) := rfl

/-- `encChar` is a prefix code: `decodeHead` recovers the first character and
the remaining encoded tail, whatever the tail is. -/
theorem decodeHead_encChar (c : Char) (x : List Char) :
    decodeHead (encChar c ++ x) = some (c, x) := by
  by_cases h1 : c = '&'
  · subst h1; rfl
  · by_cases h2 : c = '<'
    · subst h2; rfl
    · by_cases h3 : c = '>'
      · subst h3; rfl
      · by_cases h4 : c = '"'
        · subst h4; rfl
        · by_cases h5 : c = apos
          · subst h5; rfl
          · have he : encChar c = [c] := by
              simp [encChar, h1, h2, h3, h4, h5]
            rw [he, List.singleton_append]
            simp only [decodeHead]
            rw [if_neg h1]

theorem encodeList_inj : ∀ a b : List Char, encodeList a = encodeList b → a = b := by
  intro a
  induction a with
  | nil =>
      intro b h
      cases b with
      | nil => rfl
      | cons d ds =>
          exfalso
          have h2 := congrArg decodeHead h
          simp only [encodeList] at h2
          rw [decodeHead_encChar] at h2
          exact Option.noConfusion h2
  | cons c cs ih =>
      intro b h
      cases b with
      | nil =>
          exfalso
          have h2 := congrArg decodeHead h
          simp only [encodeList] at h2
          rw [decodeHead_encChar] at h2
          exact Option.noConfusion h2
      | cons d ds =>
          have h2 := congrArg decodeHead h
          simp only [encodeList] at h2
          rw [decodeHead_encChar, decodeHead_encChar] at h2
          injection h2 with h3
          injection h3 with hc ht
          rw [hc, ih ds ht]

/-- C9: the sanitization function that entity-encodes the five guarded
characters `& < > " '` is injective — `sanitizeInput x = sanitizeInput y`
implies `x = y`, so the encoding loses no information. -/
theorem claim_C9 : ∀ x y : String, sanitizeInput x = sanitizeInput y → x = y := by
  intro x y h
  have hd : sanitizeChars x.data = sanitizeChars y.data := congrArg String.data h
  rw [sanitizeChars_eq_encodeList, sanitizeChars_eq_encodeList] at hd
  have hxy := encodeList_inj _ _ hd
  cases x
  cases y
  exact congrArg String.mk hxy

/-- Witness for C9 at a concrete input containing guarded characters. -/
theorem claim_C9_witness : (("<i>J&K\"</i>" : String) = "<i>J&K\"</i>") :=
  claim_C9 "<i>J&K\"</i>" "<i>J&K\"</i>" rfl

/-! ## Endpoint theorems -/

/-- C3: for every submission whose honeypot field (`website_url` or
`website`) is non-empty (truthy), the endpoint responds `400` with error
`"Submission rejected"`, the rate-limit store is untouched, and the event
trace is empty — so no CAPTCHA verification, no IP or email rate-limit
check, and no call to the upstream content store is ever performed. -/
theorem claim_C3 (cfg : Config) (req : ContactRequest) (body : ContactBody)
    (now : Int) (cap : RecaptchaVerificationResult) (sOk : Bool) (s : Store)
    (hTok : tokenConfigured cfg = true)
    (hBody : req.jsonBody = some body)
    (hHp : truthyO body.website_url = true ∨ truthyO body.website = true) :
    (postContact cfg req now cap sOk s).1 =
      ⟨400, some "Submission rejected", none, none, false, none⟩ ∧
    (postContact cfg req now cap sOk s).2.1 = s ∧
    (postContact cfg req now cap sOk s).2.2 = [] := by
  have hor : (truthyO body.website_url || truthyO body.website) = true := by
    rcases hHp with h | h <;> simp [h]
  simp [postContact, hTok, hBody, hor]

/-- Witness for C3: a body with `website_url = "http://spam"` set is rejected
with 400 and an empty event trace. -/
theorem claim_C3_witness :
    (postContact ⟨some "tok", none, true⟩
        ⟨false, some "1.2.3.4", none,
          some ⟨some (.str "http://spam"), none, none, none, none, none, none⟩⟩
        0 ⟨false, none, none, none, none⟩ true []).1 =
      ⟨400, some "Submission rejected", none, none, false, none⟩ ∧
    (postContact ⟨some "tok", none, true⟩
        ⟨false, some "1.2.3.4", none,
          some ⟨some (.str "http://spam"), none, none, none, none, none, none⟩⟩
        0 ⟨false, none, none, none, none⟩ true []).2.1 = ([] : Store) ∧
    (postContact ⟨some "tok", none, true⟩
        ⟨false, some "1.2.3.4", none,
          some ⟨some (.str "http://spam"), none, none, none, none, none, none⟩⟩
        0 ⟨false, none, none, none, none⟩ true []).2.2 = [] :=
  claim_C3 ⟨some "tok", none, true⟩
    ⟨false, some "1.2.3.4", none,
      some ⟨some (.str "http://spam"), none, none, none, none, none, none⟩⟩
    ⟨some (.str "http://spam"), none, none, none, none, none, none⟩
    0 ⟨false, none, none, none, none⟩ true [] (by decide) rfl (Or.inl (by decide))

/-- C4: CAPTCHA verification is skipped iff the process runs in dev mode with
no usable secret key (missing, empty, or the placeholder); in every other
configuration it is mandatory, and a missing, non-string, or blank
`recaptchaToken` is rejected with a 400 response with an empty event trace —
before any network call to the verification service. -/
theorem claim_C4 :
    (∀ cfg : Config,
      requireCaptcha cfg = false ↔ (cfg.isDev = true ∧ usableSecret cfg = false)) ∧
    (∀ (cfg : Config) (req : ContactRequest) (body : ContactBody) (now : Int)
        (cap : RecaptchaVerificationResult) (sOk : Bool) (s : Store),
      requireCaptcha cfg = true →
      tokenConfigured cfg = true →
      req.jsonBody = some body →
      truthyO body.website_url = false →
      truthyO body.website = false →
      badToken body.recaptchaToken = true →
      (postContact cfg req now cap sOk s).1 =
        ⟨400, some "reCAPTCHA verification required", none, none, false, none⟩ ∧
      (postContact cfg req now cap sOk s).2.2 = []) := by
  constructor
  · intro cfg
    cases h1 : cfg.isDev <;> cases h2 : usableSecret cfg <;>
      simp [requireCaptcha, h1, h2]
  · intro cfg req body now cap sOk s hreq hTok hBody h1 h2 hbad
    simp [postContact, hreq, hTok, hBody, h1, h2, hbad]

/-- Witness for C4: a production config (`isDev = false`) requires CAPTCHA,
and a body without a token is rejected 400 with no network calls; a dev
config with a placeholder secret skips verification. -/
theorem claim_C4_witness :
    requireCaptcha ⟨some "tok", some "your_secret_key_here", true⟩ = false ∧
    ((postContact ⟨some "tok", some "secret", false⟩
        ⟨false, some "1.2.3.4", none,
          some ⟨none, none, none, none, none, none, none⟩⟩
        0 ⟨false, none, none, none, none⟩ true []).1 =
      ⟨400, some "reCAPTCHA verification required", none, none, false, none⟩ ∧
    (postContact ⟨some "tok", some "secret", false⟩
        ⟨false, some "1.2.3.4", none,
          some ⟨none, none, none, none, none, none, none⟩⟩
        0 ⟨false, none, none, none, none⟩ true []).2.2 = []) :=
  ⟨(claim_C4.1 ⟨some "tok", some "your_secret_key_here", true⟩).mpr
      ⟨rfl, by decide⟩,
    claim_C4.2 ⟨some "tok", some "secret", false⟩
      ⟨false, some "1.2.3.4", none, some ⟨none, none, none, none, none, none, none⟩⟩
      ⟨none, none, none, none, none, none, none⟩
      0 ⟨false, none, none, none, none⟩ true [] (by decide) (by decide) rfl rfl rfl rfl⟩

/-- C8: a submission that is the 6th request from the same IP within the hour
(the store holds `count = MAX_REQUESTS_PER_IP` for that IP and the window is
still active) receives a `429` whose JSON body carries `retryAfter > 0` and
whose `Retry-After` header is the same number of seconds until the window
resets. This holds for arbitrary remaining fields, which subsumes the
valid-fields case of the claim. -/
theorem claim_C8 (cfg : Config) (req : ContactRequest) (body : ContactBody)
    (now : Int) (cap : RecaptchaVerificationResult) (sOk : Bool) (s : Store) (w : Int)
    (hTok : tokenConfigured cfg = true)
    (hBody : req.jsonBody = some body)
    (hHp1 : truthyO body.website_url = false)
    (hHp2 : truthyO body.website = false)
    (hCap : requireCaptcha cfg = false ∨
      (badToken body.recaptchaToken = false ∧ isRecaptchaValid cap = true))
    (hEntry : lookupEntry (normalizeKey ("ip:" ++ getIp req)) s =
      some ⟨MAX_REQUESTS_PER_IP, w⟩)
    (hWin : now - w < WINDOW_MS) :
    (postContact cfg req now cap sOk s).1.status = 429 ∧
    (postContact cfg req now cap sOk s).1.retryAfter =
      some (getResetTimeSeconds (w + WINDOW_MS) now) ∧
    (postContact cfg req now cap sOk s).1.retryAfterHeader =
      (postContact cfg req now cap sOk s).1.retryAfter ∧
    0 < getResetTimeSeconds (w + WINDOW_MS) now := by
  have hnexp : ¬ (now - w > WINDOW_MS) := by omega
  have hge : RateLimitEntry.count ⟨MAX_REQUESTS_PER_IP, w⟩ ≥ MAX_REQUESTS_PER_IP :=
    le_refl _
  have hip : checkIpRateLimit now (getIp req) s = (⟨false, 0, w + WINDOW_MS⟩, s) := by
    simp [checkIpRateLimit, checkRateLimit, hEntry, hnexp]
  have hpos : 0 < getResetTimeSeconds (w + WINDOW_MS) now := by
    unfold getResetTimeSeconds
    omega
  rcases hCap with hskip | ⟨hbad, hvalid⟩
  · simp [postContact, hTok, hBody, hHp1, hHp2, hskip, afterCaptcha, hip, hpos]
  · cases hrc : requireCaptcha cfg <;>
      simp [postContact, hTok, hBody, hHp1, hHp2, hbad, hvalid, hrc, afterCaptcha, hip, hpos]

/-- Witness for C8: a dev-mode config (CAPTCHA skipped), a store holding
5 previous requests for `ip:1.2.3.4` since time `0`, and a 6th request at
time `1000` inside the window. -/
theorem claim_C8_witness :
    (postContact ⟨some "tok", none, true⟩
        ⟨false, some "1.2.3.4", none,
          some ⟨none, none, none, some (.str "A@b.co"), some (.str "Jane"),
            some (.str "Hi"), some (.str "Hello there, promo site.")⟩⟩
        1000 ⟨false, none, none, none, none⟩ true
        [("ip:1.2.3.4", ⟨5, 0⟩)]).1.status = 429 ∧
    (postContact ⟨some "tok", none, true⟩
        ⟨false, some "1.2.3.4", none,
          some ⟨none, none, none, some (.str "A@b.co"), some (.str "Jane"),
            some (.str "Hi"), some (.str "Hello there, promo site.")⟩⟩
        1000 ⟨false, none, none, none, none⟩ true
        [("ip:1.2.3.4", ⟨5, 0⟩)]).1.retryAfter =
      some (getResetTimeSeconds (0 + WINDOW_MS) 1000) ∧
    (postContact ⟨some "tok", none, true⟩
        ⟨false, some "1.2.3.4", none,
          some ⟨none, none, none, some (.str "A@b.co"), some (.str "Jane"),
            some (.str "Hi"), some (.str "Hello there, promo site.")⟩⟩
        1000 ⟨false, none, none, none, none⟩ true
        [("ip:1.2.3.4", ⟨5, 0⟩)]).1.retryAfterHeader =
      (postContact ⟨some "tok", none, true⟩
        ⟨false, some "1.2.3.4", none,
          some ⟨none, none, none, some (.str "A@b.co"), some (.str "Jane"),
            some (.str "Hi"), some (.str "Hello there, promo site.")⟩⟩
        1000 ⟨false, none, none, none, none⟩ true
        [("ip:1.2.3.4", ⟨5, 0⟩)]).1.retryAfter ∧
    0 < getResetTimeSeconds (0 + WINDOW_MS) 1000 :=
  claim_C8 ⟨some "tok", none, true⟩
    ⟨false, some "1.2.3.4", none,
      some ⟨none, none, none, some (.str "A@b.co"), some (.str "Jane"),
        some (.str "Hi"), some (.str "Hello there, promo site.")⟩⟩
    ⟨none, none, none, some (.str "A@b.co"), some (.str "Jane"),
      some (.str "Hi"), some (.str "Hello there, promo site.")⟩
    1000 ⟨false, none, none, none, none⟩ true
    [("ip:1.2.3.4", ⟨5, 0⟩)] 0
    (by decide) rfl rfl rfl (Or.inl (by decide)) (by decide) (by decide)

/-- C10: when both the platform client address and the `x-forwarded-for`
header are absent (or reading the client address throws), the IP used is the
constant `"unknown"`, so the IP rate limit is evaluated against the single
identifier `"ip:unknown"` — all such clients share one common counter with
ceiling `MAX_REQUESTS_PER_IP = 5` per `WINDOW_MS` = one hour. -/
theorem claim_C10 (req : ContactRequest) (now : Int) (s : Store)
    (h : req.clientAddressThrows = true ∨
      (req.clientAddress = none ∧ req.xForwardedFor = none)) :
    getIp req = "unknown" ∧
    checkIpRateLimit now (getIp req) s =
      checkRateLimit now "ip:unknown" MAX_REQUESTS_PER_IP s ∧
    MAX_REQUESTS_PER_IP = 5 ∧ WINDOW_MS = 60 * 60 * 1000 := by
  have hip : getIp req = "unknown" := by
    rcases h with h | ⟨h1, h2⟩
    · simp [getIp, h]
    · cases hthrow : req.clientAddressThrows <;> simp [getIp, h1, h2, hthrow]
  refine ⟨hip, ?_, rfl, rfl⟩
  rw [hip]
  simp only [checkIpRateLimit]
  rw [show ("ip:" ++ "unknown" : String) = "ip:unknown" from rfl]

/-- Witness for C10: a request with no client address and no forwarded
header maps to the shared `"ip:unknown"` counter. -/
theorem claim_C10_witness :
    getIp ⟨false, none, none, none⟩ = "unknown" ∧
    checkIpRateLimit 0 (getIp ⟨false, none, none, none⟩) [] =
      checkRateLimit 0 "ip:unknown" MAX_REQUESTS_PER_IP [] ∧
    MAX_REQUESTS_PER_IP = 5 ∧ WINDOW_MS = 60 * 60 * 1000 :=
  claim_C10 ⟨false, none, none, none⟩ 0 [] (Or.inr ⟨rfl, rfl⟩)

end PromoFrontend
